import Mathlib

/-!
Shallow embedding of the prompt-composition and mask-generation pipeline of
the Prompted-Game-Asset-Creator repository (src/App.tsx and
src/services/geminiService.ts), together with theorems settling the frozen
claims about it.

External effects (calls to the hosted generative-AI service, `JSON.parse`,
file encoding) are modelled by passing the effect's outcome in as an
explicit argument: a call that may throw is an `Except String` value whose
`error` constructor carries the thrown message, and a response field that
may be `undefined` is an `Option`.
-/

namespace GameAssetCreator

/-- JavaScript `t || d` on an optional string: the fallback fires when the
string is `undefined` (`none`) or empty (both are falsy). -/
def jsOr (t : Option String) (d : String) : String :=
  match t with
  | some s => if s = "" then d else s
  | none => d

/-! ## Mask rasterizer (src/App.tsx, `getMaskFile`) -/

/-- One RGBA pixel as read back by `getImageData` (each channel 0–255). -/
structure Pixel where
  r : Nat
  g : Nat
  b : Nat
  a : Nat
deriving DecidableEq, Repr

/-- A canvas bitmap: dimensions plus the row-major pixel data. -/
structure Canvas where
  width : Nat
  height : Nat
  data : List Pixel
deriving DecidableEq, Repr

/-- The 32-bit word the `Uint32Array` view exposes for a pixel: zero exactly
when all four channels are zero. -/
def pixelWord (p : Pixel) : Nat :=
  p.r + 256 * (p.g + 256 * (p.b + 256 * p.a))

/-- Opaque black, the colour `fillRect` with `fillStyle = 'black'` writes. -/
def blackPixel : Pixel := ⟨0, 0, 0, 255⟩

/-- Opaque white, the value the binarisation loop writes. -/
def whitePixel : Pixel := ⟨255, 255, 255, 255⟩

/-- Canvas `source-over` compositing of a source pixel onto a destination
pixel, in non-premultiplied 0–255 integer form as `getImageData` reports it
(integer division models the rounding). `drawImage(canvas, 0, 0)` applies
this pixelwise with the paint overlay as source. -/
def compositeOver (src dst : Pixel) : Pixel :=
  let a := src.a + dst.a * (255 - src.a) / 255
  if a = 0 then ⟨0, 0, 0, 0⟩
  else
    ⟨(src.r * src.a * 255 + dst.r * dst.a * (255 - src.a)) / (a * 255),
     (src.g * src.a * 255 + dst.g * dst.a * (255 - src.a)) / (a * 255),
     (src.b * src.a * 255 + dst.b * dst.a * (255 - src.a)) / (a * 255),
     a⟩

/-- The per-pixel pass of `getMaskFile`: a pixel with any opacity is forced
to opaque white; otherwise it is left as it stands. -/
def binarizePixel (p : Pixel) : Pixel :=
  if p.a > 0 then whitePixel else p

/-- `getMaskFile` (src/App.tsx lines 887–926). Reads the paint-overlay
canvas; if every 32-bit pixel word is zero the canvas is blank and the
result is `null`. Otherwise a mask canvas of the same dimensions is filled
opaque black, the overlay is composited on top with `drawImage`
(source-over), and every pixel whose alpha is positive is rewritten to
opaque white. The PNG/File wrapping of the resulting bitmap is identity
here: the model returns the bitmap itself. -/
def getMaskFile (overlay : Canvas) : Option Canvas :=
  if overlay.data.all (fun p => pixelWord p = 0) then
    none
  else
    some { width := overlay.width, height := overlay.height,
           data := overlay.data.map
             (fun p => binarizePixel (compositeOver p blackPixel)) }

/-! ## File encoding and request parts (src/services/geminiService.ts) -/

/-- An uploaded in-memory file. `content` stands for the file's bytes; the
base64 transport encoding performed by `FileReader.readAsDataURL` is
modelled as the identity on this string, since no claim inspects the
encoded form. -/
structure JsFile where
  content : String
  mimeType : String
deriving DecidableEq, Repr

/-- The `inlineData` payload of a generative part. -/
structure InlineData where
  data : String
  mimeType : String
deriving DecidableEq, Repr

/-- `fileToGenerativePart`: wraps a file's (encoded) bytes and media type. -/
def fileToGenerativePart (file : JsFile) : InlineData :=
  ⟨file.content, file.mimeType⟩

/-- One element of a request's `parts` array. -/
inductive Part where
  | inlinePart (d : InlineData)
  | text (s : String)
deriving DecidableEq, Repr

/-! ## The art-director agent and professional asset generation -/

/-- The asset-type union of `generateProfessionalAsset`. -/
inductive AssetType where
  | logo | banner | texture | ui | cookie | noise | uiVisual
deriving DecidableEq, Repr

/-- The string form of an asset type as it is interpolated into prompts. -/
def AssetType.str : AssetType → String
  | .logo => "logo"
  | .banner => "banner"
  | .texture => "texture"
  | .ui => "ui"
  | .cookie => "cookie"
  | .noise => "noise"
  | .uiVisual => "ui-visual"

/-- The `specificConstraints` string built at the top of
`generateProfessionalAsset`: a base sentence followed by the category's
hard-constraint clause, mirroring the source's chain of `if` appends. -/
def specificConstraints (assetType : AssetType) : String :=
  let s := "Ensure the asset is high-resolution."
  let s := if assetType = .logo then s ++ " Vector style, clean lines, iconic." else s
  let s := if assetType = .texture then s ++ " Seamless, tileable, PBR material, flat lighting." else s
  let s := if assetType = .banner then s ++ " Cinematic, atmospheric, highly detailed environment." else s
  let s := if assetType = .ui then s ++ " Isolatable elements on plain background, user interface design." else s
  let s := if assetType = .noise then s ++ " Grayscale heightmap, high contrast, mathematical procedural pattern, flat lighting, no shading, 4k resolution. Suitable for VFX shaders." else s
  let s := if assetType = .cookie then s ++ " High contrast Black and White only (Gobo). Pure black background (blocks light), White shapes (allows light). Sharp defined edges for shadow projection. No greyscale unless specified for softness." else s
  let s := if assetType = .uiVisual then s ++ " STRICTLY NO TEXT. NO NUMBERS. NO ALPHABET. Purely graphical game asset. High fidelity rendering. Isolated on a solid plain background (easy to mask). Focus on material, shape, and lighting. Iconography or abstract UI shapes only." else s
  s

/-- The `systemPrompt` template literal of `enhancePrompt`, with the three
interpolations spliced in. -/
def enhanceSystemPrompt (userPrompt context specificDetails : String) : String :=
  "\n    You are an expert Lead Game Artist and Technical Artist. \n    Your task is to take a basic user concept and rewrite it into a highly detailed, professional image generation prompt suitable for high-end AI models (like Imagen 4).\n    \n    Context: " ++ context ++
  "\n    User Concept: \"" ++ userPrompt ++
  "\"\n    Specific Constraints: " ++ specificDetails ++
  "\n    \n    Rules:\n    1. Describe lighting, composition, material properties (PBR), and rendering style (e.g., \"Unreal Engine 5\", \"Vector\", \"Hand-painted\").\n    2. Ensure the output is a single, coherent paragraph.\n    3. Do NOT add conversational text. Output ONLY the prompt.\n    "

/-- `enhancePrompt`: the art-director call. `resp` is the outcome of the
`generateContent` call (`error` = the call threw; the payload is the
optional `response.text`). The source returns `response.text || userPrompt`:
an empty or missing text falls back to the raw user prompt, but a thrown
call is not caught and propagates. -/
def enhancePrompt (userPrompt context specificDetails : String)
    (resp : Except String (Option String)) : Except String String :=
  match resp with
  | .error e => .error e
  | .ok t => .ok (jsOr t userPrompt)

/-- The request record handed to `ai.models.generateImages`. -/
structure ImageRequest where
  model : String
  prompt : String
  numberOfImages : Nat
  aspectRatio : String
  outputMimeType : String
deriving DecidableEq, Repr

/-- The `image` object of `response.generatedImages?.[0]?.image`; the three
optional hops of that chain are collapsed into one `Option` at the call
site. -/
structure GeneratedImage where
  imageBytes : Option String
deriving DecidableEq, Repr

/-- The `context` argument `generateProfessionalAsset` passes to
`enhancePrompt`. -/
def professionalContext (assetType : AssetType) (styleProfile : String) : String :=
  "Generating a professional " ++ assetType.str ++ " for a video game. Style goal: " ++ styleProfile ++ "."

/-- The prompt string submitted to the refinement endpoint by
`generateProfessionalAsset` (the `systemPrompt` of its `enhancePrompt`
call). -/
def generateProfessionalAssetRefineRequest (userPrompt : String) (assetType : AssetType)
    (styleProfile : String) : String :=
  enhanceSystemPrompt userPrompt (professionalContext assetType styleProfile)
    (specificConstraints assetType)

/-- The `generateImages` request `generateProfessionalAsset` submits, as a
function of the refinement call's outcome; `error` means the refinement call
threw, in which case no image request is ever made. -/
def generateProfessionalAssetRequest (userPrompt : String) (assetType : AssetType)
    (styleProfile : String) (aspectRatio : String)
    (refineResp : Except String (Option String)) : Except String ImageRequest :=
  match enhancePrompt userPrompt (professionalContext assetType styleProfile)
      (specificConstraints assetType) refineResp with
  | .error e => .error e
  | .ok enhancedPrompt =>
      .ok ⟨"imagen-4.0-generate-001", enhancedPrompt, 1, aspectRatio, "image/jpeg"⟩

/-- `generateProfessionalAsset`: refine the prompt, submit the image
request, and unwrap `generatedImages?.[0]?.image`. The image is used only
when present with truthy (non-empty) `imageBytes`; otherwise the function
throws its failure message. -/
def generateProfessionalAsset (userPrompt : String) (assetType : AssetType)
    (styleProfile : String) (aspectRatio : String)
    (refineResp : Except String (Option String))
    (imageResp : Except String (Option GeneratedImage)) : Except String String :=
  match generateProfessionalAssetRequest userPrompt assetType styleProfile aspectRatio refineResp with
  | .error e => .error e
  | .ok _req =>
      match imageResp with
      | .error e => .error e
      | .ok (some image) =>
          match image.imageBytes with
          | some bytes =>
              if bytes != "" then .ok ("data:image/jpeg;base64," ++ bytes)
              else .error "Failed to generate professional asset."
          | none => .error "Failed to generate professional asset."
      | .ok none => .error "Failed to generate professional asset."

/-! ## Texture extraction -/

/-- `extractTextureFromImage`: analyse the reference image (text response),
default an empty analysis to a placeholder description, then re-synthesise
through `generateProfessionalAsset` with category `texture`. Returns
`(textureUrl, materialAnalysis)`. -/
def extractTextureFromImage (referenceImage : JsFile) (makeSeamless : Bool)
    (analysisResp : Except String (Option String))
    (refineResp : Except String (Option String))
    (imageResp : Except String (Option GeneratedImage)) : Except String (String × String) :=
  match analysisResp with
  | .error e => .error e
  | .ok t =>
      let materialDescription := jsOr t "A detailed game texture"
      match generateProfessionalAsset materialDescription .texture
          (if makeSeamless then "Seamless Tiled PBR Material" else "Photorealistic PBR") "1:1"
          refineResp imageResp with
      | .error e => .error e
      | .ok textureUrl => .ok (textureUrl, materialDescription)

/-! ## Inspector: engine-specific analysis (`analyzeForEngine`) -/

/-- A JSON value, as produced by the platform's `JSON.parse`. -/
inductive Json where
  | null
  | bool (b : Bool)
  | num (n : Int)
  | str (s : String)
  | arr (elems : List Json)
  | obj (fields : List (String × Json))

/-- Whitespace skipping for the JSON reader. -/
def skipWs : List Char → List Char
  | [] => []
  | c :: cs => if c = ' ' || c = '\n' || c = '\t' || c = '\r' then skipWs cs else c :: cs

/-- Reads a JSON string body after the opening quote (escape sequences are
outside the modelled subset); returns the body and the remainder past the
closing quote. -/
def parseStringBody : List Char → Option (List Char × List Char)
  | [] => none
  | c :: cs =>
      if c = '"' then some ([], cs)
      else
        match parseStringBody cs with
        | some (s, rest) => some (c :: s, rest)
        | none => none

/-- Reads a non-empty digit run as a natural number. -/
def parseNatNum (cs : List Char) : Option (Nat × List Char) :=
  let p := cs.span (fun c => c.isDigit)
  if p.1.isEmpty then none
  else some (p.1.foldl (fun acc c => acc * 10 + (c.toNat - 48)) 0, p.2)

/-- Comma-separated member list of a JSON object (`"key": value` pairs),
consuming the closing brace; `p` parses one value and `fuel` bounds the
number of members. -/
def parseMembersAux (p : List Char → Option (Json × List Char)) :
    Nat → List Char → Option (List (String × Json) × List Char)
  | 0, _ => none
  | Nat.succ fuel, cs =>
      match skipWs cs with
      | [] => none
      | c :: rest =>
          if c = '"' then
            match parseStringBody rest with
            | none => none
            | some (key, rest₂) =>
                match skipWs rest₂ with
                | [] => none
                | c₂ :: rest₃ =>
                    if c₂ = ':' then
                      match p (skipWs rest₃) with
                      | none => none
                      | some (v, rest₄) =>
                          match skipWs rest₄ with
                          | [] => none
                          | c₃ :: rest₅ =>
                              if c₃ = ',' then
                                match parseMembersAux p fuel rest₅ with
                                | some (ms, r) => some ((String.mk key, v) :: ms, r)
                                | none => none
                              else if c₃ = '\x7d' then some ([(String.mk key, v)], rest₅)
                              else none
                    else none
          else none

/-- Comma-separated element list of a JSON array, consuming the closing
bracket. -/
def parseElemsAux (p : List Char → Option (Json × List Char)) :
    Nat → List Char → Option (List Json × List Char)
  | 0, _ => none
  | Nat.succ fuel, cs =>
      match p cs with
      | none => none
      | some (v, rest) =>
          match skipWs rest with
          | [] => none
          | c :: rest' =>
              if c = ',' then
                match parseElemsAux p fuel rest' with
                | some (vs, r) => some (v :: vs, r)
                | none => none
              else if c = ']' then some ([v], rest')
              else none

/-- Recursive JSON value reader, fuelled by input length. Models the
platform `JSON.parse` on the subset the analysis flow exchanges: objects,
arrays, escape-free strings, integer numbers, `true`/`false`/`null`. -/
def parseVal : Nat → List Char → Option (Json × List Char)
  | 0, _ => none
  | Nat.succ fuel, cs =>
      match skipWs cs with
      | [] => none
      | c :: rest =>
          if c = '"' then
            match parseStringBody rest with
            | some (s, r) => some (Json.str (String.mk s), r)
            | none => none
          else if c = '\x7b' then
            match skipWs rest with
            | [] => none
            | c₂ :: rest₂ =>
                if c₂ = '\x7d' then some (Json.obj [], rest₂)
                else
                  match parseMembersAux (parseVal fuel) fuel (c₂ :: rest₂) with
                  | some (ms, r) => some (Json.obj ms, r)
                  | none => none
          else if c = '[' then
            match skipWs rest with
            | [] => none
            | c₂ :: rest₂ =>
                if c₂ = ']' then some (Json.arr [], rest₂)
                else
                  match parseElemsAux (parseVal fuel) fuel (c₂ :: rest₂) with
                  | some (vs, r) => some (Json.arr vs, r)
                  | none => none
          else if c = 't' then
            match rest with
            | 'r' :: 'u' :: 'e' :: r => some (Json.bool true, r)
            | _ => none
          else if c = 'f' then
            match rest with
            | 'a' :: 'l' :: 's' :: 'e' :: r => some (Json.bool false, r)
            | _ => none
          else if c = 'n' then
            match rest with
            | 'u' :: 'l' :: 'l' :: r => some (Json.null, r)
            | _ => none
          else if c = '-' then
            match parseNatNum rest with
            | some (n, r) => some (Json.num (-(n : Int)), r)
            | none => none
          else if c.isDigit then
            match parseNatNum (c :: rest) with
            | some (n, r) => some (Json.num (n : Int), r)
            | none => none
          else none

/-- `JSON.parse` on a whole string: one value, then only trailing
whitespace; `none` models the thrown `SyntaxError`. -/
def jsonParse (s : String) : Option Json :=
  match parseVal (s.length + 1) s.data with
  | some (v, rest) => if (skipWs rest).isEmpty then some v else none
  | none => none

/-- The string `"{}"`, the default payload `analyzeForEngine` substitutes
for an empty model response. -/
def emptyObjectText : String := "\x7b\x7d"

/-- The `AnalysisReport` interface as observed through its four declared
fields. `JSON.parse`'s result is cast unchecked in the source, so a field
absent from the payload is `undefined` (`none`); a present field keeps
whatever JSON value the payload supplied. -/
structure AnalysisReport where
  critique : Option Json
  technicalIssues : Option Json
  engineSuggestions : Option Json
  remasterPrompt : Option Json

/-- Field lookup on a parsed JSON value, as the unchecked cast exposes it:
a non-object value has no fields at all. -/
def jsonField (j : Json) (key : String) : Option Json :=
  match j with
  | .obj fields => fields.lookup key
  | _ => none

/-- The four declared `AnalysisReport` fields of a parsed payload. -/
def reportOfJson (j : Json) : AnalysisReport :=
  ⟨jsonField j "critique", jsonField j "technicalIssues",
   jsonField j "engineSuggestions", jsonField j "remasterPrompt"⟩

/-- `analyzeForEngine`: parses `response.text || "{}"` with `JSON.parse`
and returns the cast result; a parse failure throws
"Analysis failed to produce valid report.". No key validation is
performed. -/
def analyzeForEngine (image : JsFile) (engine : String)
    (resp : Except String (Option String)) : Except String AnalysisReport :=
  match resp with
  | .error e => .error e
  | .ok t =>
      match jsonParse (jsOr t emptyObjectText) with
      | some j => .ok (reportOfJson j)
      | none => .error "Analysis failed to produce valid report."

/-! ## UI/GUI studio, reverse engineering, editing -/

/-- `extractVisualStyle`: returns `response.text` or, when the call
succeeded but the text is empty or missing, the placeholder
"High quality game art style."; a thrown call propagates. -/
def extractVisualStyle (referenceImage : JsFile)
    (resp : Except String (Option String)) : Except String String :=
  match resp with
  | .error e => .error e
  | .ok t => .ok (jsOr t "High quality game art style.")

/-- The prompt template `generateVisualElement` builds before delegating to
`generateProfessionalAsset`. -/
def visualElementPrompt (styleGuide itemDescription : String) : String :=
  "\n    Create a Game UI Visual Asset: " ++ itemDescription ++
  ".\n    \n    Target Visual Style:\n    " ++ styleGuide ++
  "\n    \n    CRITICAL CONSTRAINTS:\n    - ABSOLUTELY NO TEXT. NO NUMBERS. NO LETTERS. NO SYMBOLS.\n    - The image must be PURELY graphical/pictorial.\n    - If the request implies a button or panel, draw ONLY the background shape, frame, or icon art.\n    - High resolution, isolated on a plain solid background.\n    "

/-- `generateVisualElement`: composes the visual-asset prompt and delegates
to `generateProfessionalAsset` with category `ui-visual`. -/
def generateVisualElement (styleGuide itemDescription : String)
    (refineResp : Except String (Option String))
    (imageResp : Except String (Option GeneratedImage)) : Except String String :=
  generateProfessionalAsset (visualElementPrompt styleGuide itemDescription)
    .uiVisual "Visual Style Clone" "1:1" refineResp imageResp

/-- `reverseEngineerPrompt`: returns `response.text` or, on an empty or
missing text, the placeholder "Could not analyze image."; a thrown call
propagates. -/
def reverseEngineerPrompt (image : JsFile)
    (resp : Except String (Option String)) : Except String String :=
  match resp with
  | .error e => .error e
  | .ok t => .ok (jsOr t "Could not analyze image.")

/-- The `parts` array `editGameAsset` submits: the base image part, then
the mask part when a mask was supplied, then the text instruction, whose
phrasing depends on the mask's presence. -/
def editGameAssetParts (image : JsFile) (mask : Option JsFile) (instruction : String) : List Part :=
  let parts := [Part.inlinePart (fileToGenerativePart image)]
  let parts :=
    match mask with
    | some m => parts ++ [Part.inlinePart (fileToGenerativePart m)]
    | none => parts
  let finalPrompt :=
    match mask with
    | some _ => "Game Asset Editing Task. Using the mask, apply this change: \"" ++ instruction ++ "\". Maintain the existing art style perfectly."
    | none => "Game Asset Editing Task. Apply this change globally: \"" ++ instruction ++ "\". Maintain visual consistency."
  parts ++ [Part.text finalPrompt]

/-- `editGameAsset`: submits the edit request and unwraps
`candidates?.[0]?.content?.parts?.[0]`; `resp` carries that first part's
optional `inlineData`. A missing image part throws
"Edit generation failed.". -/
def editGameAsset (image : JsFile) (mask : Option JsFile) (instruction : String)
    (resp : Except String (Option InlineData)) : Except String String :=
  match resp with
  | .error e => .error e
  | .ok (some d) => .ok ("data:" ++ d.mimeType ++ ";base64," ++ d.data)
  | .ok none => .error "Edit generation failed."

/-! ## VFX services and deprecated wrappers -/

/-- The VFX category union. -/
inductive VfxCategory where
  | noise | cookie
deriving DecidableEq, Repr

/-- `VfxParams`: the noise/cookie parameter record, optional fields
modelling the optional TS properties. -/
structure VfxParams where
  type : String
  category : VfxCategory
  scale : Option String
  contrast : Option String
  complexity : Option String
  edge : Option String
  aperture : Option String
  vibe : Option String
deriving DecidableEq, Repr

/-- The quality-tier union of `generateVfxAsset`. -/
inductive Quality where
  | draft | pro
deriving DecidableEq, Repr

/-- The `(prompt, techSpecs)` pair `generateVfxAsset` composes per
category, with the JS `||` defaults and the flashlight special case. -/
def vfxPrompt (params : VfxParams) : String × String :=
  match params.category with
  | .noise =>
      ("Seamless tileable " ++ params.type ++ " noise texture. " ++
       "Scale: " ++ jsOr params.scale "Standard" ++ ". " ++
       "Contrast: " ++ jsOr params.contrast "High" ++ ". " ++
       "Complexity: " ++ jsOr params.complexity "Standard" ++ ". ",
       "Technical requirements: Grayscale heightmap, mathematical procedural pattern, flat lighting, no shading, square 1:1. Suitable for VFX shaders.")
  | .cookie =>
      ("Light cookie texture (gobo) pattern: " ++ params.type ++ ". " ++
       "Aperture Shape: " ++ jsOr params.aperture "Square" ++ ". " ++
       "Edge Softness: " ++ jsOr params.edge "Sharp" ++ ". " ++
       "Cleanliness: " ++ jsOr params.vibe "Clean" ++ ". ",
       "Technical requirements: High contrast Black and White only. Pure black background (blocks light), White shapes (allows light). Defines shadow projection." ++
       (if params.aperture = some "Circular (Flashlight)" then " MUST be a circular beam in the center of a black square. Edges must fade to black." else ""))

/-- The asset type `generateVfxAsset` passes through to
`generateProfessionalAsset` for each VFX category. -/
def VfxCategory.assetType : VfxCategory → AssetType
  | .noise => AssetType.noise
  | .cookie => AssetType.cookie

/-- `generateVfxAsset`: draft quality submits a single flash-image request
(`draftResp` carries its first part's optional `inlineData`, a missing
image throwing "Draft generation failed."); pro quality delegates to
`generateProfessionalAsset` with style "Technical Art". -/
def generateVfxAsset (params : VfxParams) (quality : Quality)
    (draftResp : Except String (Option InlineData))
    (refineResp : Except String (Option String))
    (imageResp : Except String (Option GeneratedImage)) : Except String String :=
  match quality with
  | .draft =>
      match draftResp with
      | .error e => .error e
      | .ok (some d) => .ok ("data:" ++ d.mimeType ++ ";base64," ++ d.data)
      | .ok none => .error "Draft generation failed."
  | .pro =>
      generateProfessionalAsset (vfxPrompt params).1 params.category.assetType
        "Technical Art" "1:1" refineResp imageResp

/-- `paintUVTexture`: submits the UV-painting request and unwraps the
first part's optional `inlineData`; a missing image throws
"UV Painting failed. Please try a different image or prompt.". -/
def paintUVTexture (uvImage : JsFile) (objectType style colors : String)
    (resp : Except String (Option InlineData)) : Except String String :=
  match resp with
  | .error e => .error e
  | .ok (some d) => .ok ("data:" ++ d.mimeType ++ ";base64," ++ d.data)
  | .ok none => .error "UV Painting failed. Please try a different image or prompt."

/-- Deprecated wrapper: `generateNoiseTexture`. -/
def generateNoiseTexture (noiseType : String)
    (draftResp : Except String (Option InlineData))
    (refineResp : Except String (Option String))
    (imageResp : Except String (Option GeneratedImage)) : Except String String :=
  generateVfxAsset ⟨noiseType, .noise, none, none, none, none, none, none⟩ .pro
    draftResp refineResp imageResp

/-- Deprecated wrapper: `generateLightCookie`. -/
def generateLightCookie (cookieType : String)
    (draftResp : Except String (Option InlineData))
    (refineResp : Except String (Option String))
    (imageResp : Except String (Option GeneratedImage)) : Except String String :=
  generateVfxAsset ⟨cookieType, .cookie, none, none, none, none, none, none⟩ .pro
    draftResp refineResp imageResp

/-- Backwards-compatibility wrapper: `extractUiStyle`. -/
def extractUiStyle (f : JsFile)
    (resp : Except String (Option String)) : Except String String :=
  extractVisualStyle f resp

/-- Backwards-compatibility wrapper: `generateUiComponent`. -/
def generateUiComponent (s c : String)
    (refineResp : Except String (Option String))
    (imageResp : Except String (Option GeneratedImage)) : Except String String :=
  generateVisualElement s c refineResp imageResp

/-! ## Session asset registry (src/App.tsx) -/

/-- The `Asset.type` union of the library's asset records. -/
inductive AssetKind where
  | logo | banner | texture | edit | ui | remaster | noise | cookie
deriving DecidableEq, Repr

/-- A library entry (the `Asset` interface; `createdAt` as an abstract
timestamp). -/
structure Asset where
  id : String
  type : AssetKind
  url : String
  prompt : String
  createdAt : Nat
deriving DecidableEq, Repr

/-- `addToLibrary`: `setLibrary(prev => [asset, ...prev])`. -/
def addToLibrary (asset : Asset) (library : List Asset) : List Asset :=
  asset :: library

/-- `deleteFromLibrary`: `setLibrary(prev => prev.filter(a => a.id !== id))`
(src/App.tsx line 701). -/
def deleteFromLibrary (idv : String) (library : List Asset) : List Asset :=
  library.filter (fun a => a.id != idv)

/-! ## Multi-concept fan-out handlers (src/App.tsx, second document) -/

/-- Modelled from the spec: the `Promise.all` join over N independent
asynchronous calls. Spec §4.4/§5: "a fixed-size fan-out of N independent
asynchronous operations joined with an all-or-nothing wait ...; if any one
fails, the entire batch is treated as failed and no partial set of images
is surfaced". The rejection surfaced is the first failed entry in list
order (the calls are structurally identical, so order stands in for
rejection time). -/
def promiseAll {ε α : Type} : List (Except ε α) → Except ε (List α)
  | [] => .ok []
  | r :: rest =>
      match r with
      | .error e => .error e
      | .ok a =>
          match promiseAll rest with
          | .ok xs => .ok (a :: xs)
          | .error e => .error e

/-- Modelled from the spec: `generateLogoConcepts` is imported by App.tsx
but its source is not under src/ (only its caller `handleGenerateLogos`
is). Spec §4.4: "Multi-concept categories (e.g., 'produce 4 logo variants')
issue N structurally identical requests concurrently and wait for all to
complete; ... any one failing fails the whole batch (no partial-success
aggregation)" — a `Promise.all` fan-out over the per-concept call
outcomes. -/
def generateLogoConcepts (callResults : List (Except String String)) :
    Except String (List String) :=
  promiseAll callResults

/-- Modelled from the spec: `generateBanners` is imported by App.tsx but
its source is not under src/; same all-or-nothing fan-out as
`generateLogoConcepts`. -/
def generateBanners (callResults : List (Except String String)) :
    Except String (List String) :=
  promiseAll callResults

/-- The slice of LogoStudio component state `handleGenerateLogos`
touches. -/
structure LogoStudioState where
  generatedLogos : List String
  error : Option String
  isLoadingLogos : Bool
deriving DecidableEq, Repr

/-- `handleGenerateLogos` (src/App.tsx lines 1000–1016): validates the
prompt, resets the surfaced list and error, awaits the fan-out, and either
surfaces all result URLs or records the failure message, leaving zero
surfaced assets. -/
def handleGenerateLogos (logoPrompt : String)
    (callResults : List (Except String String)) (s : LogoStudioState) : LogoStudioState :=
  if logoPrompt = "" then
    { s with error := some "Please enter a prompt for your logo." }
  else
    let s₁ := { s with isLoadingLogos := true, generatedLogos := [], error := none }
    match generateLogoConcepts callResults with
    | .ok resultUrls => { s₁ with generatedLogos := resultUrls, isLoadingLogos := false }
    | .error e => { s₁ with error := some e, isLoadingLogos := false }

/-- The slice of BannerStudio component state `handleGenerateBanners`
touches. -/
structure BannerStudioState where
  generatedBanners : List String
  error : Option String
  isLoadingBanners : Bool
deriving DecidableEq, Repr

/-- `handleGenerateBanners` (src/App.tsx lines 1018–1034): same shape as
`handleGenerateLogos` over the banner fan-out. -/
def handleGenerateBanners (bannerPrompt : String)
    (callResults : List (Except String String)) (s : BannerStudioState) : BannerStudioState :=
  if bannerPrompt = "" then
    { s with error := some "Please enter a prompt for your banner." }
  else
    let s₁ := { s with isLoadingBanners := true, generatedBanners := [], error := none }
    match generateBanners callResults with
    | .ok resultUrls => { s₁ with generatedBanners := resultUrls, isLoadingBanners := false }
    | .error e => { s₁ with error := some e, isLoadingBanners := false }

/-! ## Request observables -/

/-- Number of inline-image parts in a request's parts array. -/
def inlinePartCount (parts : List Part) : Nat :=
  (parts.filter (fun p => match p with | .inlinePart _ => true | .text _ => false)).length

/-- The text parts of a request's parts array, in order. -/
def textParts (parts : List Part) : List String :=
  parts.filterMap (fun p => match p with | .text s => some s | .inlinePart _ => none)

/-! ## Supporting lemmas -/

/-- After the mask canvas is filled opaque black, compositing any overlay
pixel onto it yields alpha 255, so the binarisation pass turns every single
pixel white. -/
theorem binarize_composite_black (p : Pixel) :
    binarizePixel (compositeOver p blackPixel) = whitePixel := by
  have h255 : (255 : Nat) * (255 - p.a) / 255 = 255 - p.a :=
    Nat.mul_div_cancel_left _ (by norm_num)
  have hne : ¬ (p.a + 255 * (255 - p.a) / 255 = 0) := by
    rw [h255]; omega
  have hpos : 0 < p.a + 255 * (255 - p.a) / 255 := Nat.pos_of_ne_zero hne
  simp only [compositeOver, blackPixel, binarizePixel]
  rw [if_neg hne, if_pos hpos]

/-- A `Promise.all` join over a list containing a failed entry is itself a
failure. -/
theorem promiseAll_error_of_mem {ε α : Type} (e : ε) (rs : List (Except ε α))
    (h : Except.error e ∈ rs) : ∃ e', promiseAll rs = Except.error e' := by
  induction rs with
  | nil => cases h
  | cons r rest ih =>
      rcases List.mem_cons.mp h with hr | hmem
      · exact ⟨e, by simp [promiseAll, ← hr]⟩
      · cases r with
        | error e₀ => exact ⟨e₀, by simp [promiseAll]⟩
        | ok a =>
            obtain ⟨e', he'⟩ := ih hmem
            exact ⟨e', by simp [promiseAll, he']⟩

/-! ## Claim theorems -/

/-- C1: the claim says every stencil pixel not covered by a paint stroke is
pure black. Evaluating `getMaskFile` at a 2×1 overlay whose first pixel is
completely unpainted (0,0,0,0) and whose second carries a stroke shows the
code promotes both pixels to pure white: after the opaque black fill, the
source-over composite gives every pixel alpha 255, so the
`data[i + 3] > 0` test holds everywhere and the whole stencil is white, the
unpainted pixel included. -/
theorem c1_unpainted_pixel_promoted_to_white :
    getMaskFile (Canvas.mk 2 1 [Pixel.mk 0 0 0 0, Pixel.mk 200 50 50 128])
      = some (Canvas.mk 2 1 [whitePixel, whitePixel]) := by decide

/-- C2 (counterexample): an invocation of professional texture generation
in which the art-director model answers with the text "Ok" submits the
final image request with prompt exactly "Ok", which does not contain the
seamless/tileable clause — the clause lives in the refinement request, not
in the image request. -/
theorem c2_final_image_prompt_lacks_clause :
    generateProfessionalAssetRequest "hello" AssetType.texture "Fantasy" "1:1" (.ok (some "Ok"))
      = .ok ⟨"imagen-4.0-generate-001", "Ok", 1, "1:1", "image/jpeg"⟩
    ∧ generateProfessionalAsset "hello" AssetType.texture "Fantasy" "1:1" (.ok (some "Ok"))
        (.ok (some ⟨some "XYZ"⟩)) = .ok ("data:image/jpeg;base64," ++ "XYZ")
    ∧ ¬ ("Seamless, tileable".data <:+: "Ok".data) := by
  refine ⟨rfl, rfl, ?_⟩
  decide

set_option maxRecDepth 8192

/-- C2 (amended): for every texture invocation, the prompt submitted to the
art-director refinement endpoint contains the seamless/tileable clause,
regardless of the user-supplied text and style profile. -/
theorem c2_refine_request_contains_texture_clause (userPrompt styleProfile : String) :
    "Seamless, tileable".data <:+:
      (generateProfessionalAssetRefineRequest userPrompt AssetType.texture styleProfile).data := by
  have hsc : "Seamless, tileable".data <:+: (specificConstraints AssetType.texture).data := by
    decide
  have ext : ∀ (s t x : List Char), x <:+: t → x <:+: s ++ t :=
    fun s t x h => h.trans (List.suffix_append s t).isInfix
  simp only [generateProfessionalAssetRefineRequest, enhanceSystemPrompt, String.data_append,
    List.append_assoc]
  exact ext _ _ _ (ext _ _ _ (ext _ _ _ (ext _ _ _ (ext _ _ _
    (hsc.trans (List.prefix_append _ _).isInfix)))))

/-- C3 (counterexample): a structured-analysis response whose payload is
the well-formed JSON object `{}` — every required key absent — is returned
as a successful report with all four fields silently absent, not as a
malformed-structured-response failure. -/
theorem c3_missing_keys_returned_as_success :
    analyzeForEngine (JsFile.mk "asset" "image/png") "Unreal Engine 5"
      (.ok (some emptyObjectText)) = .ok ⟨none, none, none, none⟩ := rfl

/-- C3 (amended): `analyzeForEngine` fails with the distinct
"Analysis failed to produce valid report." error exactly when the payload
(`response.text`, defaulted to "{}" when empty) is not well-formed JSON;
required keys are not validated, and an empty payload yields a successful
report with every field absent. -/
theorem c3_distinct_error_only_for_malformed_json (image : JsFile) (engine : String)
    (t : Option String) :
    (analyzeForEngine image engine (.ok t) = .error "Analysis failed to produce valid report."
      ↔ jsonParse (jsOr t emptyObjectText) = none)
    ∧ analyzeForEngine image engine (.ok none) = .ok ⟨none, none, none, none⟩ := by
  constructor
  · cases hj : jsonParse (jsOr t emptyObjectText) with
    | some j => simp [analyzeForEngine, hj]
    | none => simp [analyzeForEngine, hj]
  · rfl

/-- C4 (counterexample): when the art-director refinement call throws, the
error propagates out of `generateProfessionalAsset` — the overall
generation fails and no image request is made — even though the image
endpoint would have returned an image. -/
theorem c4_refinement_throw_fails_generation :
    generateProfessionalAsset "castle" AssetType.logo "Fantasy" "1:1"
      (.error "network error") (.ok (some ⟨some "AAAA"⟩)) = .error "network error"
    ∧ generateProfessionalAssetRequest "castle" AssetType.logo "Fantasy" "1:1"
        (.error "network error") = .error "network error" := ⟨rfl, rfl⟩

/-- C4 (amended): when the refinement call succeeds but returns empty or
missing text, the image request's text is the original user prompt
verbatim; when the refinement call throws, the thrown error propagates and
no image request is made. -/
theorem c4_empty_refinement_falls_back (userPrompt styleProfile aspectRatio : String)
    (assetType : AssetType) (e : String) :
    (generateProfessionalAssetRequest userPrompt assetType styleProfile aspectRatio
        (.ok none)).map ImageRequest.prompt = .ok userPrompt
    ∧ (generateProfessionalAssetRequest userPrompt assetType styleProfile aspectRatio
        (.ok (some ""))).map ImageRequest.prompt = .ok userPrompt
    ∧ generateProfessionalAssetRequest userPrompt assetType styleProfile aspectRatio
        (.error e) = .error e := by
  refine ⟨rfl, ?_, rfl⟩
  rfl

/-- C5: if any one of the N parallel generation calls fails, the logo and
banner handlers surface zero assets (the surfaced list is reset and left
empty) and record the failure. -/
theorem c5_fanout_all_or_nothing (logoPrompt bannerPrompt : String)
    (rsL rsB : List (Except String String)) (sL : LogoStudioState) (sB : BannerStudioState)
    (eL eB : String) (hL : logoPrompt ≠ "") (hB : bannerPrompt ≠ "")
    (hmL : Except.error eL ∈ rsL) (hmB : Except.error eB ∈ rsB) :
    ((handleGenerateLogos logoPrompt rsL sL).generatedLogos = []
      ∧ (handleGenerateLogos logoPrompt rsL sL).error.isSome = true)
    ∧ (handleGenerateBanners bannerPrompt rsB sB).generatedBanners = []
      ∧ (handleGenerateBanners bannerPrompt rsB sB).error.isSome = true := by
  obtain ⟨e₁, h₁⟩ := promiseAll_error_of_mem eL rsL hmL
  obtain ⟨e₂, h₂⟩ := promiseAll_error_of_mem eB rsB hmB
  refine ⟨⟨?_, ?_⟩, ?_, ?_⟩ <;>
    simp [handleGenerateLogos, handleGenerateBanners, generateLogoConcepts, generateBanners,
      h₁, h₂, hL, hB]

/-- C5 witness: two concrete fan-outs, each with one failed call, starting
from states that already surfaced stale assets. -/
theorem c5_fanout_all_or_nothing_witness :
    ((handleGenerateLogos "dragon emblem" [Except.ok "u1", Except.error "quota exceeded"]
        (LogoStudioState.mk ["stale"] none false)).generatedLogos = []
      ∧ (handleGenerateLogos "dragon emblem" [Except.ok "u1", Except.error "quota exceeded"]
        (LogoStudioState.mk ["stale"] none false)).error.isSome = true)
    ∧ (handleGenerateBanners "castle banner" [Except.error "refused"]
        (BannerStudioState.mk ["old"] none false)).generatedBanners = []
      ∧ (handleGenerateBanners "castle banner" [Except.error "refused"]
        (BannerStudioState.mk ["old"] none false)).error.isSome = true :=
  c5_fanout_all_or_nothing "dragon emblem" "castle banner"
    [Except.ok "u1", Except.error "quota exceeded"] [Except.error "refused"]
    (LogoStudioState.mk ["stale"] none false) (BannerStudioState.mk ["old"] none false)
    "quota exceeded" "refused" (by decide) (by decide) (by simp) (by simp)

/-- C6: the edit request carries exactly one extra inline part (the mask)
when and only when a mask was supplied, and its single text part uses the
"Using the mask" phrasing with a mask and the "Apply this change globally"
phrasing without one. -/
theorem c6_mask_part_and_phrasing_iff_mask (image : JsFile) (mask : Option JsFile)
    (instruction : String) :
    inlinePartCount (editGameAssetParts image mask instruction)
      = (if mask.isSome then 2 else 1)
    ∧ textParts (editGameAssetParts image mask instruction)
      = [if mask.isSome
         then "Game Asset Editing Task. Using the mask, apply this change: \"" ++ instruction ++ "\". Maintain the existing art style perfectly."
         else "Game Asset Editing Task. Apply this change globally: \"" ++ instruction ++ "\". Maintain visual consistency."] := by
  cases mask <;> exact ⟨rfl, rfl⟩

/-- C7: the mask rasterizer returns `null` exactly when every overlay pixel
word is zero (nothing painted), and a non-null stencil has the overlay's
dimensions, contains a white pixel, and is never all black. -/
theorem c7_null_iff_blank_and_never_all_black (overlay : Canvas) :
    (getMaskFile overlay = none
      ↔ overlay.data.all (fun p => pixelWord p = 0) = true)
    ∧ ∀ m, getMaskFile overlay = some m →
        (whitePixel ∈ m.data ∧ m.width = overlay.width ∧ m.height = overlay.height
          ∧ m.data.all (fun p => p == blackPixel) = false) := by
  constructor
  · by_cases hc : overlay.data.all (fun p => decide (pixelWord p = 0)) = true
    · simp [getMaskFile, hc]
    · simp [getMaskFile, hc]
  · intro m hm
    by_cases hc : overlay.data.all (fun p => decide (pixelWord p = 0)) = true
    · simp [getMaskFile, hc] at hm
    · have hsome : getMaskFile overlay
          = some ⟨overlay.width, overlay.height,
              overlay.data.map (fun p => binarizePixel (compositeOver p blackPixel))⟩ := by
        simp [getMaskFile, hc]
      have hmeq : m = ⟨overlay.width, overlay.height,
          overlay.data.map (fun p => binarizePixel (compositeOver p blackPixel))⟩ :=
        Option.some_inj.mp (hm.symm.trans hsome)
      subst hmeq
      obtain ⟨x, hx, hxw⟩ : ∃ x ∈ overlay.data, ¬ pixelWord x = 0 := by
        simpa [List.all_eq_true] using hc
      have hwhite : whitePixel ∈ overlay.data.map
          (fun p => binarizePixel (compositeOver p blackPixel)) :=
        binarize_composite_black x ▸ List.mem_map_of_mem _ hx
      refine ⟨hwhite, rfl, rfl, ?_⟩
      rw [List.all_eq_false]
      exact ⟨whitePixel, hwhite, by decide⟩

/-- C7 witness: a 1×1 overlay with a single faint stroke yields a non-null
stencil of the same dimensions containing a white pixel and not all
black. -/
theorem c7_witness :
    whitePixel ∈ (Canvas.mk 1 1 [whitePixel]).data
    ∧ (Canvas.mk 1 1 [whitePixel]).width = (Canvas.mk 1 1 [Pixel.mk 10 0 0 0]).width
    ∧ (Canvas.mk 1 1 [whitePixel]).height = (Canvas.mk 1 1 [Pixel.mk 10 0 0 0]).height
    ∧ (Canvas.mk 1 1 [whitePixel]).data.all (fun p => p == blackPixel) = false :=
  (c7_null_iff_blank_and_never_all_black (Canvas.mk 1 1 [Pixel.mk 10 0 0 0])).2
    (Canvas.mk 1 1 [whitePixel]) (by decide)

/-- C8 (counterexample): an empty model response in `extractVisualStyle`
and `reverseEngineerPrompt` is converted into a fixed placeholder string
returned as a success, not surfaced as a failure. -/
theorem c8_empty_text_becomes_placeholder :
    extractVisualStyle (JsFile.mk "ref" "image/png") (.ok (some ""))
      = .ok "High quality game art style."
    ∧ reverseEngineerPrompt (JsFile.mk "asset" "image/png") (.ok none)
      = .ok "Could not analyze image." := ⟨rfl, rfl⟩

/-- C8 (amended): thrown failures propagate from every operation, and the
image-producing operations surface an empty or unusable payload as a
failure; but the text-returning operations `extractVisualStyle` and
`reverseEngineerPrompt`, and the analysis stage of
`extractTextureFromImage`, replace an empty model text with a fixed
placeholder returned as success. -/
theorem c8_image_ops_fail_text_ops_default (f g : JsFile) (mask : Option JsFile)
    (instr e userPrompt styleProfile aspectRatio : String) (assetType : AssetType)
    (t : Option String) (params : VfxParams) (objectType style colors : String) :
    extractVisualStyle f (.ok (some "")) = .ok "High quality game art style."
    ∧ extractVisualStyle f (.ok none) = .ok "High quality game art style."
    ∧ extractVisualStyle f (.error e) = .error e
    ∧ reverseEngineerPrompt f (.ok (some "")) = .ok "Could not analyze image."
    ∧ reverseEngineerPrompt f (.ok none) = .ok "Could not analyze image."
    ∧ reverseEngineerPrompt f (.error e) = .error e
    ∧ (extractTextureFromImage f true (.ok none) (.ok t)
        (.ok (some ⟨some "B"⟩))).map Prod.snd = .ok "A detailed game texture"
    ∧ generateProfessionalAsset userPrompt assetType styleProfile aspectRatio (.ok t)
        (.ok none) = .error "Failed to generate professional asset."
    ∧ generateProfessionalAsset userPrompt assetType styleProfile aspectRatio (.ok t)
        (.ok (some ⟨none⟩)) = .error "Failed to generate professional asset."
    ∧ generateProfessionalAsset userPrompt assetType styleProfile aspectRatio (.ok t)
        (.ok (some ⟨some ""⟩)) = .error "Failed to generate professional asset."
    ∧ editGameAsset g mask instr (.ok none) = .error "Edit generation failed."
    ∧ editGameAsset g mask instr (.error e) = .error e
    ∧ generateVfxAsset params .draft (.ok none) (.ok t) (.ok none)
      = .error "Draft generation failed."
    ∧ paintUVTexture g objectType style colors (.ok none)
      = .error "UV Painting failed. Please try a different image or prompt." := by
  refine ⟨rfl, rfl, rfl, rfl, rfl, rfl, rfl, rfl, rfl, ?_, rfl, rfl, rfl, rfl⟩
  rfl

/-- C9: registry delete is idempotent, deleting an id not present leaves
the registry unchanged, and the deleted registry holds exactly the assets
whose id differs from the deleted one. -/
theorem c9_delete_idempotent_and_exact (library : List Asset) (idv : String) :
    deleteFromLibrary idv (deleteFromLibrary idv library) = deleteFromLibrary idv library
    ∧ ((∀ a ∈ library, a.id ≠ idv) → deleteFromLibrary idv library = library)
    ∧ (∀ a, a ∈ deleteFromLibrary idv library ↔ a ∈ library ∧ a.id ≠ idv) := by
  refine ⟨?_, ?_, ?_⟩
  · simp [deleteFromLibrary, List.filter_filter]
  · intro h
    rw [deleteFromLibrary, List.filter_eq_self]
    intro a ha
    simpa using h a ha
  · intro a
    simp [deleteFromLibrary, List.mem_filter]

/-- C9 witness: a concrete two-asset registry, deleting a present id and a
missing id. -/
theorem c9_delete_idempotent_and_exact_witness :
    deleteFromLibrary "b" (deleteFromLibrary "b"
        [Asset.mk "a" AssetKind.logo "u" "p" 0, Asset.mk "b" AssetKind.texture "v" "q" 1])
      = deleteFromLibrary "b"
        [Asset.mk "a" AssetKind.logo "u" "p" 0, Asset.mk "b" AssetKind.texture "v" "q" 1]
    ∧ ((∀ a ∈ [Asset.mk "a" AssetKind.logo "u" "p" 0,
          Asset.mk "b" AssetKind.texture "v" "q" 1], a.id ≠ "zzz")
        → deleteFromLibrary "zzz"
            [Asset.mk "a" AssetKind.logo "u" "p" 0, Asset.mk "b" AssetKind.texture "v" "q" 1]
          = [Asset.mk "a" AssetKind.logo "u" "p" 0, Asset.mk "b" AssetKind.texture "v" "q" 1])
    ∧ (∀ a, a ∈ deleteFromLibrary "zzz"
          [Asset.mk "a" AssetKind.logo "u" "p" 0, Asset.mk "b" AssetKind.texture "v" "q" 1]
        ↔ a ∈ [Asset.mk "a" AssetKind.logo "u" "p" 0,
            Asset.mk "b" AssetKind.texture "v" "q" 1] ∧ a.id ≠ "zzz") :=
  ⟨(c9_delete_idempotent_and_exact
      [Asset.mk "a" AssetKind.logo "u" "p" 0, Asset.mk "b" AssetKind.texture "v" "q" 1] "b").1,
   (c9_delete_idempotent_and_exact
      [Asset.mk "a" AssetKind.logo "u" "p" 0, Asset.mk "b" AssetKind.texture "v" "q" 1] "zzz").2.1,
   (c9_delete_idempotent_and_exact
      [Asset.mk "a" AssetKind.logo "u" "p" 0, Asset.mk "b" AssetKind.texture "v" "q" 1] "zzz").2.2⟩

/-- C10: the deprecated wrappers delegate extensionally to the functions
they wrap, for all inputs and all modelled call outcomes. -/
theorem c10_deprecated_wrappers_delegate (t c s : String) (f : JsFile)
    (respT : Except String (Option String))
    (draftResp : Except String (Option InlineData))
    (refineResp : Except String (Option String))
    (imageResp : Except String (Option GeneratedImage)) :
    extractUiStyle f respT = extractVisualStyle f respT
    ∧ generateUiComponent s c refineResp imageResp = generateVisualElement s c refineResp imageResp
    ∧ generateNoiseTexture t draftResp refineResp imageResp
      = generateVfxAsset ⟨t, .noise, none, none, none, none, none, none⟩ .pro
          draftResp refineResp imageResp
    ∧ generateLightCookie t draftResp refineResp imageResp
      = generateVfxAsset ⟨t, .cookie, none, none, none, none, none, none⟩ .pro
          draftResp refineResp imageResp :=
  ⟨rfl, rfl, rfl, rfl⟩

end GameAssetCreator
